import Mathlib

set_option autoImplicit false

/-!
Shallow embedding of the backend command-dispatch layer of `rslib/src/backend/mod.rs`:
the `Backend` struct, its collection guard (`with_col`, `open_collection`,
`close_collection`), the dispatcher (`run_command_bytes`, `run_command`,
`run_command_inner`), the error translator (`anki_error_to_proto_error` and the
`From<...> for i32` impls), the progress channel (`fire_progress_callback`), and the
card conversions (`card_to_pb`, `pbcard_to_native`).

External collaborators (the scheduler, template engine, media manager, search,
storage, i18n catalog and protobuf codec) are out of scope per the spec and are
modelled as abstract function parameters gathered in a `Collaborators` record.
Rust machine integers are modelled as `Nat`/`Int` with explicit `% 2^w` at the
points where the source performs a narrowing `as` cast.  A Rust panic
(`todo!()`, `Option::unwrap` on `None`) is modelled by the `panicked` outcome of
`PanicOr`; all other control flow is pure.  `f32`/`f64` payloads that the
dispatcher merely forwards are modelled as opaque bit patterns (`FloatW`).
-/

/-- Opaque bit pattern standing for an `f32`/`f64` payload that the dispatcher
only forwards to a collaborator and never computes with. -/
structure FloatW where
  bits : Nat
deriving DecidableEq, Repr

/-- A protobuf `Empty` message. -/
structure PbEmpty where
deriving DecidableEq, Repr

/-- `NetworkErrorKind` from `err.rs`, as matched exhaustively in
`impl From<NetworkErrorKind> for i32` (mod.rs lines 86-96). -/
inductive NetworkErrorKind where
  | Offline
  | Timeout
  | ProxyAuth
  | Other
deriving DecidableEq, Repr, Fintype

/-- `SyncErrorKind` from `err.rs`, as matched exhaustively in
`impl From<SyncErrorKind> for i32` (mod.rs lines 98-111). -/
inductive SyncErrorKind where
  | Conflict
  | ServerError
  | ClientTooOld
  | AuthFailed
  | ServerMessage
  | ResyncRequired
  | Other
deriving DecidableEq, Repr, Fintype

/-- `AnkiError` from `err.rs`.  The variant set is exactly the nine kinds matched
exhaustively by `anki_error_to_proto_error` (mod.rs lines 59-71); the `info`
strings model the context payloads. -/
inductive AnkiError where
  | InvalidInput (info : String)
  | TemplateError (info : String)
  | IOError (info : String)
  | DBError (info : String)
  | NetworkError (info : String) (kind : NetworkErrorKind)
  | SyncError (info : String) (kind : SyncErrorKind)
  | Interrupted
  | CollectionNotOpen
  | CollectionAlreadyOpen
deriving DecidableEq, Repr

/-- Modelled from the spec: the wire enum `pb::network_error::NetworkErrorKind`
is generated protobuf code not under src/; the spec only requires that each
subtype has its own wire code, so the codes are taken as distinct small
integers in declaration order. -/
def pb_network_error_kind_code : NetworkErrorKind → Int
  | .Offline => 0
  | .Timeout => 1
  | .ProxyAuth => 2
  | .Other => 3

/-- Modelled from the spec: the wire enum `pb::sync_error::SyncErrorKind`
is generated protobuf code not under src/; codes taken as distinct small
integers in declaration order. -/
def pb_sync_error_kind_code : SyncErrorKind → Int
  | .Conflict => 0
  | .ServerError => 1
  | .ClientTooOld => 2
  | .AuthFailed => 3
  | .ServerMessage => 4
  | .ResyncRequired => 5
  | .Other => 6

/-- `impl From<NetworkErrorKind> for i32` (mod.rs lines 86-96): map the internal
subtype onto the wire enum variant of the same name, then take its code. -/
def network_error_kind_to_i32 (e : NetworkErrorKind) : Int :=
  pb_network_error_kind_code
    (match e with
      | .Offline => .Offline
      | .Timeout => .Timeout
      | .ProxyAuth => .ProxyAuth
      | .Other => .Other)

/-- `impl From<SyncErrorKind> for i32` (mod.rs lines 98-111). -/
def sync_error_kind_to_i32 (e : SyncErrorKind) : Int :=
  pb_sync_error_kind_code
    (match e with
      | .Conflict => .Conflict
      | .ServerError => .ServerError
      | .ClientTooOld => .ClientTooOld
      | .AuthFailed => .AuthFailed
      | .ServerMessage => .ServerMessage
      | .ResyncRequired => .ResyncRequired
      | .Other => .Other)

/-- Modelled from the spec: the wire decoder for the network subtype code
(generated `from_i32`), inverse of the code assignment above. -/
def network_error_kind_from_i32 (n : Int) : Option NetworkErrorKind :=
  if n = 0 then some .Offline
  else if n = 1 then some .Timeout
  else if n = 2 then some .ProxyAuth
  else if n = 3 then some .Other
  else none

/-- Modelled from the spec: the wire decoder for the sync subtype code
(generated `from_i32`), inverse of the code assignment above. -/
def sync_error_kind_from_i32 (n : Int) : Option SyncErrorKind :=
  if n = 0 then some .Conflict
  else if n = 1 then some .ServerError
  else if n = 2 then some .ClientTooOld
  else if n = 3 then some .AuthFailed
  else if n = 4 then some .ServerMessage
  else if n = 5 then some .ResyncRequired
  else if n = 6 then some .Other
  else none

/-- `pb::backend_error::Value`: the machine-readable wire error value. -/
inductive BackendErrorValue where
  | InvalidInput
  | TemplateParse
  | IoError
  | DbError
  | NetworkError (kind : Int)
  | SyncError (kind : Int)
  | Interrupted
deriving DecidableEq, Repr

/-- `pb::BackendError`: wire error value plus localized text. -/
structure BackendError where
  value : Option BackendErrorValue
  localized : String
deriving DecidableEq, Repr

/-- `anki_error_to_proto_error` (mod.rs lines 56-77).  `loc` stands for
`err.localized_description(i18n)`, which lives in the i18n collaborator. -/
def anki_error_to_proto_error (loc : AnkiError → String) (err : AnkiError) : BackendError :=
  let localized := loc err
  let value : BackendErrorValue :=
    match err with
    | .InvalidInput _ => .InvalidInput
    | .TemplateError _ => .TemplateParse
    | .IOError _ => .IoError
    | .DBError _ => .DbError
    | .NetworkError _ kind => .NetworkError (network_error_kind_to_i32 kind)
    | .SyncError _ kind => .SyncError (sync_error_kind_to_i32 kind)
    | .Interrupted => .Interrupted
    | .CollectionNotOpen => .InvalidInput
    | .CollectionAlreadyOpen => .InvalidInput
  { value := some value, localized := localized }

/-- The internal error taxonomy's kind (with subtype where applicable),
forgetting only the free-form context strings.  Used to state which kinds the
wire value can and cannot distinguish. -/
inductive ErrKind where
  | invalidInput
  | templateParse
  | ioError
  | dbError
  | networkError (k : NetworkErrorKind)
  | syncError (k : SyncErrorKind)
  | interrupted
  | collectionNotOpen
  | collectionAlreadyOpen
deriving DecidableEq, Repr, Fintype

/-- The kind (with subtype) of an internal error value. -/
def errKind : AnkiError → ErrKind
  | .InvalidInput _ => .invalidInput
  | .TemplateError _ => .templateParse
  | .IOError _ => .ioError
  | .DBError _ => .dbError
  | .NetworkError _ k => .networkError k
  | .SyncError _ k => .syncError k
  | .Interrupted => .interrupted
  | .CollectionNotOpen => .collectionNotOpen
  | .CollectionAlreadyOpen => .collectionAlreadyOpen

/-- The wire error value produced for each internal kind (factoring
`anki_error_to_proto_error` through `errKind`). -/
def proto_error_value_of_kind : ErrKind → BackendErrorValue
  | .invalidInput => .InvalidInput
  | .templateParse => .TemplateParse
  | .ioError => .IoError
  | .dbError => .DbError
  | .networkError k => .NetworkError (network_error_kind_to_i32 k)
  | .syncError k => .SyncError (sync_error_kind_to_i32 k)
  | .interrupted => .Interrupted
  | .collectionNotOpen => .InvalidInput
  | .collectionAlreadyOpen => .InvalidInput

/-- The two kinds that the translator folds into the invalid-input wire value. -/
def collapses_to_invalid : ErrKind → Bool
  | .collectionNotOpen => true
  | .collectionAlreadyOpen => true
  | _ => false

/-- Opaque logger handle (`Logger` from `log.rs`, external). -/
structure LoggerT where
  tag : String
deriving DecidableEq, Repr

/-- The open Collection Handle (`Collection` from `collection.rs`, external to
src/).  Modelled from the spec: it wraps the storage connection, the media
paths and the logger; `media_sync_running` is the "busy" flag set around media
sync, and `can_close` is whether the handle reports it is safe to close. -/
structure Collection where
  collection_path : String
  media_folder : String
  media_db : String
  log : LoggerT
  media_sync_running : Bool
  can_close : Bool
deriving DecidableEq, Repr

/-- The `Backend` struct (mod.rs lines 43-48).  `col` is the single optional
collection behind the mutex; `progress_callback` is the host-supplied
`ProtoProgressCallback` (bytes in, continue/cancel out).  The i18n handle is
modelled by collaborator functions instead of a field. -/
structure Backend where
  col : Option Collection
  progress_callback : Option (List Nat → Bool)
  server : Bool

/-- `MediaSyncProgress` (media/sync.rs, external): counters carried by a media
sync progress snapshot (field set from `media_sync_progress`, lines 707-719). -/
structure MediaSyncProgressT where
  checked : Nat
  uploaded_files : Nat
  downloaded_files : Nat
  uploaded_deletions : Nat
  downloaded_deletions : Nat
deriving DecidableEq, Repr

/-- The internal `Progress` union (mod.rs lines 50-53). -/
inductive Progress where
  | MediaSync (p : MediaSyncProgressT)
  | MediaCheck (n : Nat)
deriving DecidableEq, Repr

/-- `pb::MediaSyncProgress`: three localized strings (lines 707-719). -/
structure PbMediaSyncProgress where
  checked : String
  added : String
  removed : String
deriving DecidableEq, Repr

/-- Opaque handle for `MediaManager` (media/mod.rs, external): it is constructed
from the two media paths copied out of the collection. -/
structure MediaManagerT where
  media_folder : String
  media_db : String
deriving DecidableEq, Repr

/-- Opaque parsed template (`ParsedTemplate`, template.rs, external). -/
structure ParsedTemplateT where
  text : String
deriving DecidableEq, Repr

/-- `FieldRequirements` from template.rs, as matched in
`template_requirements` (lines 342-350).  The `HashSet<u16>` of ordinals is
modelled as a list. -/
inductive FieldRequirements where
  | Any (ords : List Nat)
  | All (ords : List Nat)
  | None
deriving DecidableEq, Repr

/-- `pb::template_requirement::Value`. -/
inductive TemplateRequirementValue where
  | Any (ords : List Nat)
  | All (ords : List Nat)
  | None
deriving DecidableEq, Repr

/-- `pb::TemplateRequirement`. -/
structure TemplateRequirement where
  value : Option TemplateRequirementValue
deriving DecidableEq, Repr

/-- `pb::TemplateRequirementsOut`. -/
structure TemplateRequirementsOut where
  requirements : List TemplateRequirement
deriving DecidableEq, Repr

/-- `pb::TemplateRequirementsIn`: the map `HashMap<String, u32>` is modelled as
an association list. -/
structure TemplateRequirementsIn where
  template_front : List String
  field_names_to_ordinals : List (String × Nat)
deriving DecidableEq, Repr

/-- `pb::SchedTimingTodayIn` (optional wrappers flattened to `Option`). -/
structure SchedTimingTodayIn where
  created_secs : Int
  now_secs : Int
  created_mins_west : Option Int
  now_mins_west : Option Int
  rollover_hour : Option Int
deriving DecidableEq, Repr

/-- `SchedTimingToday` / `pb::SchedTimingTodayOut`. -/
structure SchedTimingTodayOut where
  days_elapsed : Nat
  next_day_at : Int
deriving DecidableEq, Repr

/-- `RenderedNode` from template.rs (external), as matched in
`rendered_node_to_proto` (lines 676-689). -/
inductive RenderedNode where
  | Text (text : String)
  | Replacement (field_name : String) (current_text : String) (filters : List String)
deriving DecidableEq, Repr

/-- `pb::rendered_template_node::Value`. -/
inductive RenderedTemplateNodeValue where
  | Text (text : String)
  | Replacement (field_name : String) (current_text : String) (filters : List String)
deriving DecidableEq, Repr

/-- `pb::RenderedTemplateNode`. -/
structure RenderedTemplateNode where
  value : Option RenderedTemplateNodeValue
deriving DecidableEq, Repr

/-- `pb::RenderCardIn` (the string map modelled as an association list). -/
structure RenderCardIn where
  question_template : String
  answer_template : String
  fields : List (String × String)
  card_ordinal : Nat
deriving DecidableEq, Repr

/-- `pb::RenderCardOut`. -/
structure RenderCardOut where
  question_nodes : List RenderedTemplateNode
  answer_nodes : List RenderedTemplateNode
deriving DecidableEq, Repr

/-- `AVTag` from text.rs (external), as matched in `extract_av_tags`. -/
inductive AVTag where
  | SoundOrVideo (file : String)
  | TextToSpeech (field_text : String) (lang : String) (voices : List String)
      (other_args : List String) (speed : FloatW)
deriving DecidableEq, Repr

/-- `pb::av_tag::Value`. -/
inductive PbAvTagValue where
  | SoundOrVideo (file : String)
  | Tts (field_text : String) (lang : String) (voices : List String)
      (other_args : List String) (speed : FloatW)
deriving DecidableEq, Repr

/-- `pb::AvTag`. -/
structure PbAvTag where
  value : Option PbAvTagValue
deriving DecidableEq, Repr

/-- `pb::ExtractAvTagsIn`. -/
structure ExtractAvTagsIn where
  text : String
  question_side : Bool
deriving DecidableEq, Repr

/-- `pb::ExtractAvTagsOut`. -/
structure ExtractAvTagsOut where
  text : String
  av_tags : List PbAvTag
deriving DecidableEq, Repr

/-- `ExtractedLatex` from latex.rs (external). -/
structure ExtractedLatexT where
  fname : String
  latex : String
deriving DecidableEq, Repr

/-- `pb::ExtractedLatex`. -/
structure PbExtractedLatex where
  filename : String
  latex_body : String
deriving DecidableEq, Repr

/-- `pb::ExtractLatexIn`. -/
structure ExtractLatexIn where
  text : String
  svg : Bool
  expand_clozes : Bool
deriving DecidableEq, Repr

/-- `pb::ExtractLatexOut`. -/
structure ExtractLatexOut where
  text : String
  latex : List PbExtractedLatex
deriving DecidableEq, Repr

/-- `pb::AddMediaFileIn` (file data as a byte list). -/
structure AddMediaFileIn where
  desired_name : String
  data : List Nat
deriving DecidableEq, Repr

/-- `pb::SyncMediaIn`. -/
structure SyncMediaIn where
  hkey : String
  endpoint : String
deriving DecidableEq, Repr

/-- Output of `MediaChecker::check` (media/check.rs, external). -/
structure MediaCheckOutputT where
  unused : List String
  missing : List String
  trash_count : Nat
deriving DecidableEq, Repr

/-- `pb::MediaCheckOut`. -/
structure MediaCheckOut where
  unused : List String
  missing : List String
  report : String
  have_trash : Bool
deriving DecidableEq, Repr

/-- `pb::TrashMediaFilesIn`. -/
structure TrashMediaFilesIn where
  fnames : List String
deriving DecidableEq, Repr

/-- `pb::translate_arg_value::Value` (the f64 modelled opaquely). -/
inductive TranslateArgValueValue where
  | Str (s : String)
  | Number (f : FloatW)
deriving DecidableEq, Repr

/-- `pb::TranslateArgValue`. -/
structure TranslateArgValue where
  value : Option TranslateArgValueValue
deriving DecidableEq, Repr

/-- `FluentValue` from the fluent crate (external). -/
inductive FluentValueT where
  | String (s : String)
  | Number (f : FloatW)
deriving DecidableEq, Repr

/-- Opaque `FluentString` catalog key (i18n, external). -/
structure FluentStringT where
  code : Nat
deriving DecidableEq, Repr

/-- `pb::TranslateStringIn` (args map as an association list). -/
structure TranslateStringIn where
  key : Int
  args : List (String × TranslateArgValue)
deriving DecidableEq, Repr

/-- `pb::format_time_span_in::Context`. -/
inductive FormatTimeSpanContext where
  | Precise
  | Intervals
  | AnswerButtons
deriving DecidableEq, Repr

/-- `pb::FormatTimeSpanIn`. -/
structure FormatTimeSpanIn where
  seconds : FloatW
  context : Int
deriving DecidableEq, Repr

/-- `pb::StudiedTodayIn`. -/
structure StudiedTodayIn where
  cards : Nat
  seconds : FloatW
deriving DecidableEq, Repr

/-- `pb::CongratsLearnMsgIn`. -/
structure CongratsLearnMsgIn where
  remaining : Nat
  next_due : FloatW
deriving DecidableEq, Repr

/-- `pb::OpenCollectionIn`. -/
structure OpenCollectionIn where
  collection_path : String
  media_folder_path : String
  media_db_path : String
  log_path : String
deriving DecidableEq, Repr

/-- `SortKind` from config.rs, variant set as matched in `sort_kind_from_pb`
(lines 721-741). -/
inductive SortKind where
  | NoteCreation
  | NoteMod
  | NoteField
  | NoteTags
  | NoteType
  | CardMod
  | CardReps
  | CardDue
  | CardEase
  | CardLapses
  | CardInterval
  | CardDeck
  | CardTemplate
deriving DecidableEq, Repr

/-- `pb::BuiltinSortKind`, variant set as matched in `sort_kind_from_pb`. -/
inductive BuiltinSortKind where
  | NoteCreation
  | NoteMod
  | NoteField
  | NoteTags
  | NoteType
  | CardMod
  | CardReps
  | CardDue
  | CardEase
  | CardLapses
  | CardInterval
  | CardDeck
  | CardTemplate
deriving DecidableEq, Repr

/-- `SortMode` from search (external), as built in `search_cards`. -/
inductive SortMode where
  | NoOrder
  | Custom (s : String)
  | FromConfig
  | Builtin (kind : SortKind) (reverse : Bool)
deriving DecidableEq, Repr

/-- `pb::sort_order::Value`. -/
inductive SortOrderValue where
  | NoneOrder
  | Custom (s : String)
  | FromConfig
  | Builtin (kind : Int) (reverse : Bool)
deriving DecidableEq, Repr

/-- `pb::SortOrder`. -/
structure SortOrder where
  value : Option SortOrderValue
deriving DecidableEq, Repr

/-- `pb::SearchCardsIn`. -/
structure SearchCardsIn where
  search : String
  order : Option SortOrder
deriving DecidableEq, Repr

/-- `pb::SearchCardsOut`. -/
structure SearchCardsOut where
  card_ids : List Int
deriving DecidableEq, Repr

/-- `pb::SearchNotesIn`. -/
structure SearchNotesIn where
  search : String
deriving DecidableEq, Repr

/-- `pb::SearchNotesOut`. -/
structure SearchNotesOut where
  note_ids : List Int
deriving DecidableEq, Repr

/-- Carrier for `CardType` (card.rs, external): a `#[repr(u8)]` enum whose
valid discriminants are decided by the collaborator `card_type_try_from`. -/
structure CardTypeT where
  code : Nat
deriving DecidableEq, Repr

/-- Carrier for `CardQueue` (card.rs, external): a `#[repr(i8)]` enum whose
valid discriminants are decided by the collaborator `card_queue_try_from`. -/
structure CardQueueT where
  code : Int
deriving DecidableEq, Repr

/-- Native `Card` (card.rs, external to src/), field set and widths as
exercised by `card_to_pb` / `pbcard_to_native` (lines 743-791): `ord` and
`factor` are u16, `flags` is u8. -/
structure Card where
  id : Int
  nid : Int
  did : Int
  ord : Nat
  mtime : Int
  usn : Int
  ctype : CardTypeT
  queue : CardQueueT
  due : Int
  ivl : Nat
  factor : Nat
  reps : Nat
  lapses : Nat
  left : Nat
  odue : Int
  odid : Int
  flags : Nat
  data : String
deriving DecidableEq, Repr

/-- `pb::Card` (lines 743-764): `ord`, `ctype`, `factor`, `flags` are u32,
`queue` is i32. -/
structure PbCard where
  id : Int
  nid : Int
  did : Int
  ord : Nat
  mtime : Int
  usn : Int
  ctype : Nat
  queue : Int
  due : Int
  ivl : Nat
  factor : Nat
  reps : Nat
  lapses : Nat
  left : Nat
  odue : Int
  odid : Int
  flags : Nat
  data : String
deriving DecidableEq, Repr

/-- `pb::GetCardOut`. -/
structure GetCardOut where
  card : Option PbCard
deriving DecidableEq, Repr

/-- Outcome of running Rust code that may panic: either a panic with its
message, or a normal return. -/
inductive PanicOr (α : Type) where
  | panicked (msg : String)
  | returned (a : α)
deriving Repr

/-- `pb::backend_input::Value` (the request union), variant set and payloads as
matched in `run_command_inner` (lines 203-264). -/
inductive IValue where
  | TemplateRequirements (input : TemplateRequirementsIn)
  | SchedTimingToday (input : SchedTimingTodayIn)
  | DeckTree (input : PbEmpty)
  | RenderCard (input : RenderCardIn)
  | LocalMinutesWest (stamp : Int)
  | StripAvTags (text : String)
  | ExtractAvTags (input : ExtractAvTagsIn)
  | ExtractLatex (input : ExtractLatexIn)
  | AddMediaFile (input : AddMediaFileIn)
  | SyncMedia (input : SyncMediaIn)
  | CheckMedia (input : PbEmpty)
  | TrashMediaFiles (input : TrashMediaFilesIn)
  | TranslateString (input : TranslateStringIn)
  | FormatTimeSpan (input : FormatTimeSpanIn)
  | StudiedToday (input : StudiedTodayIn)
  | CongratsLearnMsg (input : CongratsLearnMsgIn)
  | EmptyTrash (input : PbEmpty)
  | RestoreTrash (input : PbEmpty)
  | OpenCollection (input : OpenCollectionIn)
  | CloseCollection (input : PbEmpty)
  | SearchCards (input : SearchCardsIn)
  | SearchNotes (input : SearchNotesIn)
  | GetCard (cid : Int)
  | UpdateCard (card : PbCard)
  | AddCard (card : PbCard)
deriving DecidableEq, Repr

/-- `pb::BackendInput` (the Request Envelope): an optional inner value. -/
structure BackendInput where
  value : Option IValue
deriving DecidableEq, Repr

/-- `pb::backend_output::Value` (the response union). -/
inductive OValue where
  | Error (err : BackendError)
  | TemplateRequirements (out : TemplateRequirementsOut)
  | SchedTimingToday (out : SchedTimingTodayOut)
  | RenderCard (out : RenderCardOut)
  | LocalMinutesWest (val : Int)
  | StripAvTags (text : String)
  | ExtractAvTags (out : ExtractAvTagsOut)
  | ExtractLatex (out : ExtractLatexOut)
  | AddMediaFile (fname : String)
  | SyncMedia (e : PbEmpty)
  | CheckMedia (out : MediaCheckOut)
  | TrashMediaFiles (e : PbEmpty)
  | TranslateString (s : String)
  | FormatTimeSpan (s : String)
  | StudiedToday (s : String)
  | CongratsLearnMsg (s : String)
  | EmptyTrash (e : PbEmpty)
  | RestoreTrash (e : PbEmpty)
  | OpenCollection (e : PbEmpty)
  | CloseCollection (e : PbEmpty)
  | SearchCards (out : SearchCardsOut)
  | SearchNotes (out : SearchNotesOut)
  | GetCard (out : GetCardOut)
  | UpdateCard (e : PbEmpty)
  | AddCard (id : Int)
deriving DecidableEq, Repr

/-- `pb::BackendOutput` (the Response Envelope). -/
structure BackendOutput where
  value : Option OValue
deriving DecidableEq, Repr

/-- `pb::progress::Value`. -/
inductive PbProgressValue where
  | MediaSync (p : PbMediaSyncProgress)
  | MediaCheck (s : String)
deriving DecidableEq, Repr

/-- `pb::Progress`. -/
structure PbProgress where
  value : Option PbProgressValue
deriving DecidableEq, Repr

/-- The external collaborators of the dispatch layer (spec section 1: the
scheduler, template engine, media subsystem, search, storage, i18n catalog and
protobuf codec are out of scope, accessed through narrow interfaces).  Each
field is the abstract function the source calls. -/
structure Collaborators where
  /-- `err.localized_description(i18n)` (err.rs + i18n). -/
  localized_description : AnkiError → String
  /-- `pb::BackendInput::decode` (prost). -/
  decode_backend_input : List Nat → Option BackendInput
  /-- `BackendOutput::encode` (prost; encoding into a fresh buffer cannot fail). -/
  encode_backend_output : BackendOutput → List Nat
  /-- `pb::Progress` construction + `encode` together with the i18n strings it
  embeds (lines 691-719). -/
  encode_progress : PbProgress → List Nat
  /-- `i18n.trn(FString::MediaCheckChecked, ...)` (line 696). -/
  tr_media_check_checked : Nat → String
  /-- `i18n.trn(FString::SyncMediaCheckedCount, ...)` (line 709). -/
  tr_sync_media_checked : Nat → String
  /-- `i18n.trn(FString::SyncMediaAddedCount, ...)` (lines 710-713). -/
  tr_sync_media_added : Nat → Nat → String
  /-- `i18n.trn(FString::SyncMediaRemovedCount, ...)` (lines 714-717). -/
  tr_sync_media_removed : Nat → Nat → String
  /-- `without_legacy_template_directives` (template.rs). -/
  without_legacy_template_directives : String → String
  /-- `ParsedTemplate::from_text` (template.rs); `none` models `Err`. -/
  template_from_text : String → Option ParsedTemplateT
  /-- `tmpl.requirements(&map)` (template.rs). -/
  template_requirements_of : ParsedTemplateT → List (String × Nat) → FieldRequirements
  /-- `sched_timing_today` (sched/cutoff.rs). -/
  sched_timing_today_op : Int → Int → Option Int → Option Int → Option Int → SchedTimingTodayOut
  /-- `render_card` (template.rs). -/
  render_card_op : String → String → List (String × String) → Nat →
    Except AnkiError (List RenderedNode × List RenderedNode)
  /-- `local_minutes_west_for_stamp` (sched/cutoff.rs). -/
  local_minutes_west_for_stamp : Int → Int
  /-- `strip_av_tags` (text.rs). -/
  strip_av_tags : String → String
  /-- `extract_av_tags` (text.rs). -/
  extract_av_tags_op : String → Bool → String × List AVTag
  /-- `extract_latex` (latex.rs). -/
  extract_latex_op : String → Bool → String × List ExtractedLatexT
  /-- `extract_latex_expanding_clozes` (latex.rs). -/
  extract_latex_expanding_clozes_op : String → Bool → String × List ExtractedLatexT
  /-- `MediaManager::new(&folder, &db)` (media/mod.rs). -/
  media_manager_new : String → String → Except AnkiError MediaManagerT
  /-- `mgr.add_file(&mut ctx, name, data)` (media/mod.rs). -/
  mgr_add_file : MediaManagerT → String → List Nat → Except AnkiError String
  /-- `rt.block_on(mgr.sync_media(callback, endpoint, hkey, log))`
  (media/sync.rs driven by the tokio runtime; `Runtime::new()` is modelled as
  succeeding).  A cancelled run surfaces as `AnkiError.Interrupted`. -/
  mgr_sync_media : MediaManagerT → (MediaSyncProgressT → Bool) → String → String →
    LoggerT → Except AnkiError Unit
  /-- `checker.check()` inside a transaction (media/check.rs); returns its
  output together with the possibly mutated collection. -/
  checker_check : MediaManagerT → Collection → Except AnkiError (MediaCheckOutputT × Collection)
  /-- `checker.summarize_output(&mut output)` (media/check.rs). -/
  summarize_output : MediaCheckOutputT → String
  /-- `checker.empty_trash()` inside a transaction (media/check.rs). -/
  checker_empty_trash : MediaManagerT → Collection → Except AnkiError (Unit × Collection)
  /-- `checker.restore_trash()` inside a transaction (media/check.rs). -/
  checker_restore_trash : MediaManagerT → Collection → Except AnkiError (Unit × Collection)
  /-- `mgr.remove_files(&mut ctx, fnames)` (media/files.rs). -/
  mgr_remove_files : MediaManagerT → List String → Except AnkiError Unit
  /-- `pb::FluentString::from_i32` (generated). -/
  fluent_string_from_i32 : Int → Option FluentStringT
  /-- `i18n.trn(key, map)` (i18n). -/
  i18n_trn : FluentStringT → List (String × FluentValueT) → String
  /-- `pb::format_time_span_in::Context::from_i32` (generated). -/
  format_context_from_i32 : Int → Option FormatTimeSpanContext
  /-- `time_span(seconds, i18n, precise)` (sched/timespan.rs). -/
  time_span_op : FloatW → Bool → String
  /-- `answer_button_time(seconds, i18n)` (sched/timespan.rs). -/
  answer_button_time_op : FloatW → String
  /-- `studied_today(cards, seconds, i18n)` (sched/timespan.rs). -/
  studied_today_op : Nat → FloatW → String
  /-- `learning_congrats(remaining, next_due, i18n)` (sched/timespan.rs). -/
  learning_congrats_op : Nat → FloatW → String
  /-- `default_logger(log_path)` (log.rs). -/
  default_logger : Option String → Except AnkiError LoggerT
  /-- `open_collection(path, media_folder, media_db, server, i18n, logger)`
  (collection.rs): constructs the Collection Handle or fails. -/
  open_collection_op : String → String → String → Bool → LoggerT →
    Except AnkiError Collection
  /-- `pb::BuiltinSortKind::from_i32` (generated). -/
  builtin_sort_kind_from_i32 : Int → Option BuiltinSortKind
  /-- `search_cards(ctx, search, order)` (search/, storage). -/
  search_cards_op : Collection → String → SortMode → Except AnkiError (List Int)
  /-- `search_notes(ctx, search)` (search/, storage). -/
  search_notes_op : Collection → String → Except AnkiError (List Int)
  /-- `ctx.storage.get_card(cid)` (storage). -/
  storage_get_card : Collection → Int → Except AnkiError (Option Card)
  /-- `ctx.update_card(&mut card)` inside a transaction (storage). -/
  ctx_update_card : Collection → Card → Except AnkiError Collection
  /-- `ctx.add_card(&mut card)` inside a transaction (storage): assigns and
  returns the new card id, possibly mutating the collection. -/
  ctx_add_card : Collection → Card → Except AnkiError (Int × Collection)
  /-- `CardType::try_from(v as u8)` (card.rs): which u8 discriminants are valid. -/
  card_type_try_from : Nat → Option CardTypeT
  /-- `CardQueue::try_from(v as i8)` (card.rs): which i8 discriminants are valid. -/
  card_queue_try_from : Int → Option CardQueueT

/-- `n as u8` for a Rust `u32` value: truncation modulo 2^8. -/
def u32_as_u8 (n : Nat) : Nat := n % 256

/-- `n as u16` for a Rust `u32` value: truncation modulo 2^16. -/
def u32_as_u16 (n : Nat) : Nat := n % 65536

/-- `n as i8` for a Rust `i32` value: keep the low 8 bits, reinterpreted as a
signed byte. -/
def i32_as_i8 (n : Int) : Int :=
  let m := n % 256
  if m < 128 then m else m - 256

/-- `ords_hash_to_set` (lines 663-665): the u16 ordinals widen losslessly to
u32. -/
def ords_hash_to_set (ords : List Nat) : List Nat :=
  ords.map (fun ord => ord)

/-- `translate_arg_to_fluent_val` (lines 652-661). -/
def translate_arg_to_fluent_val (arg : TranslateArgValue) : FluentValueT :=
  match arg.value with
  | some val =>
    match val with
    | .Str s => .String s
    | .Number f => .Number f
  | none => .String ""

/-- `rendered_node_to_proto` (lines 676-689). -/
def rendered_node_to_proto (node : RenderedNode) : RenderedTemplateNodeValue :=
  match node with
  | .Text text => .Text text
  | .Replacement field_name current_text filters => .Replacement field_name current_text filters

/-- `rendered_nodes_to_proto` (lines 667-674). -/
def rendered_nodes_to_proto (nodes : List RenderedNode) : List RenderedTemplateNode :=
  nodes.map (fun n => { value := some (rendered_node_to_proto n) })

/-- `media_sync_progress` (lines 707-719). -/
def media_sync_progress (C : Collaborators) (p : MediaSyncProgressT) : PbMediaSyncProgress :=
  { checked := C.tr_sync_media_checked p.checked
    added := C.tr_sync_media_added p.uploaded_files p.downloaded_files
    removed := C.tr_sync_media_removed p.uploaded_deletions p.downloaded_deletions }

/-- `progress_to_proto_bytes` (lines 691-705): build the `pb::Progress` message
and encode it (encoding into a fresh buffer cannot fail). -/
def progress_to_proto_bytes (C : Collaborators) (progress : Progress) : List Nat :=
  let proto : PbProgress :=
    { value := some (match progress with
        | .MediaSync p => .MediaSync (media_sync_progress C p)
        | .MediaCheck n => .MediaCheck (C.tr_media_check_checked n)) }
  C.encode_progress proto

/-- `sort_kind_from_pb` (lines 721-741). -/
def sort_kind_from_pb (C : Collaborators) (kind : Int) : SortKind :=
  match C.builtin_sort_kind_from_i32 kind with
  | some pbkind =>
    match pbkind with
    | .NoteCreation => .NoteCreation
    | .NoteMod => .NoteMod
    | .NoteField => .NoteField
    | .NoteTags => .NoteTags
    | .NoteType => .NoteType
    | .CardMod => .CardMod
    | .CardReps => .CardReps
    | .CardDue => .CardDue
    | .CardEase => .CardEase
    | .CardLapses => .CardLapses
    | .CardInterval => .CardInterval
    | .CardDeck => .CardDeck
    | .CardTemplate => .CardTemplate
  | none => SortKind.NoteCreation

/-- `card_to_pb` (lines 743-764): the u16/u8 fields widen losslessly into the
u32 wire fields. -/
def card_to_pb (c : Card) : PbCard :=
  { id := c.id
    nid := c.nid
    did := c.did
    ord := c.ord
    mtime := c.mtime
    usn := c.usn
    ctype := c.ctype.code
    queue := c.queue.code
    due := c.due
    ivl := c.ivl
    factor := c.factor
    reps := c.reps
    lapses := c.lapses
    left := c.left
    odue := c.odue
    odid := c.odid
    flags := c.flags
    data := c.data }

/-- `pbcard_to_native` (lines 766-791): `CardType::try_from(c.ctype as u8)` and
`CardQueue::try_from(c.queue as i8)` guard the conversion; the narrowing `as`
casts on `ord`, `factor` and `flags` truncate. -/
def pbcard_to_native (C : Collaborators) (c : PbCard) : Except AnkiError Card :=
  match C.card_type_try_from (u32_as_u8 c.ctype) with
  | none => .error (.InvalidInput "invalid card type")
  | some ctype =>
    match C.card_queue_try_from (i32_as_i8 c.queue) with
    | none => .error (.InvalidInput "invalid card queue")
    | some queue =>
      .ok { id := c.id
            nid := c.nid
            did := c.did
            ord := u32_as_u16 c.ord
            mtime := c.mtime
            usn := c.usn
            ctype := ctype
            queue := queue
            due := c.due
            ivl := c.ivl
            factor := u32_as_u16 c.factor
            reps := c.reps
            lapses := c.lapses
            left := c.left
            odue := c.odue
            odid := c.odid
            flags := u32_as_u8 c.flags
            data := c.data }

/-- `Backend::new` (lines 129-136). -/
def Backend.new (server : Bool) : Backend :=
  { col := none, progress_callback := none, server := server }

/-- `Backend::set_progress_callback` (lines 320-322). -/
def Backend.set_progress_callback (b : Backend) (cb : Option (List Nat → Bool)) : Backend :=
  { b with progress_callback := cb }

/-- `Backend::with_col` (lines 168-179): if the collection is open, run the
closure on it (threading any mutation it makes); if not, return
`CollectionNotOpen`. -/
def with_col {α : Type} (b : Backend)
    (func : Collection → Except AnkiError α × Collection) :
    Except AnkiError α × Backend :=
  match b.col with
  | none => (.error .CollectionNotOpen, b)
  | some col =>
    let (r, col') := func col
    (r, { b with col := some col' })

/-- `col.transact(None, op)` (collection.rs, external to src/).  Modelled from
the spec: wraps the operation in a storage transaction, committing only on
success and rolling back on any failure, guaranteeing all-or-nothing effects. -/
def transact {α : Type} (col : Collection)
    (op : Collection → Except AnkiError (α × Collection)) :
    Except AnkiError α × Collection :=
  match op col with
  | .error e => (.error e, col)
  | .ok (a, col') => (.ok a, col')

/-- `Backend::fire_progress_callback` (lines 311-318). -/
def fire_progress_callback (C : Collaborators) (b : Backend) (progress : Progress) : Bool :=
  match b.progress_callback with
  | some cb => cb (progress_to_proto_bytes C progress)
  | none => true

/-- `Backend::open_collection` (lines 267-294).  The source also builds an
unused `path = collection_path + ".log"` local; it has no observable effect and
is omitted. -/
def open_collection (C : Collaborators) (b : Backend) (input : OpenCollectionIn) :
    Except AnkiError Unit × Backend :=
  match b.col with
  | some _ => (.error .CollectionAlreadyOpen, b)
  | none =>
    let log_path : Option String := if input.log_path = "" then none else some input.log_path
    match C.default_logger log_path with
    | .error e => (.error e, b)
    | .ok logger =>
      match C.open_collection_op input.collection_path input.media_folder_path
          input.media_db_path b.server logger with
      | .error e => (.error e, b)
      | .ok new_col => (.ok (), { b with col := some new_col })

/-- `Backend::close_collection` (lines 296-309). -/
def close_collection (b : Backend) : Except AnkiError Unit × Backend :=
  match b.col with
  | none => (.error .CollectionNotOpen, b)
  | some col =>
    if ¬ col.can_close then
      (.error (.InvalidInput "can't close yet"), b)
    else
      (.ok (), { b with col := none })

/-- The per-template closure inside `template_requirements` (lines 337-358):
parse the normalized template; on success convert its requirements, on parse
failure the card is unsatisfiable (`Value::None`). -/
def template_requirement_of (C : Collaborators) (map : List (String × Nat))
    (template : String) : TemplateRequirement :=
  let normalized := C.without_legacy_template_directives template
  match C.template_from_text normalized with
  | some tmpl =>
    let val : TemplateRequirementValue :=
      match C.template_requirements_of tmpl map with
      | .Any ords => .Any (ords_hash_to_set ords)
      | .All ords => .All (ords_hash_to_set ords)
      | .None => .None
    { value := some val }
  | none => { value := some TemplateRequirementValue.None }

/-- `Backend::template_requirements` (lines 324-363).  The source collects the
per-template results with `collect::<Result<Vec<_>>>()`, but both branches of
the closure yield `Ok`, so the collect is a plain map.  The `ord as u16` cast
truncates. -/
def template_requirements (C : Collaborators) (input : TemplateRequirementsIn) :
    Except AnkiError TemplateRequirementsOut :=
  let map : List (String × Nat) :=
    input.field_names_to_ordinals.map (fun p => (p.1, u32_as_u16 p.2))
  let all_reqs := input.template_front.map (template_requirement_of C map)
  .ok { requirements := all_reqs }

/-- `Backend::sched_timing_today` (lines 365-377). -/
def sched_timing_today (C : Collaborators) (input : SchedTimingTodayIn) :
    SchedTimingTodayOut :=
  let today := C.sched_timing_today_op input.created_secs input.now_secs
    input.created_mins_west input.now_mins_west input.rollover_hour
  { days_elapsed := today.days_elapsed, next_day_at := today.next_day_at }

/-- `Backend::render_template` (lines 379-401). -/
def render_template (C : Collaborators) (input : RenderCardIn) :
    Except AnkiError RenderCardOut :=
  match C.render_card_op input.question_template input.answer_template
      input.fields input.card_ordinal with
  | .error e => .error e
  | .ok (qnodes, anodes) =>
    .ok { question_nodes := rendered_nodes_to_proto qnodes
          answer_nodes := rendered_nodes_to_proto anodes }

/-- `Backend::extract_av_tags` (lines 403-433). -/
def extract_av_tags (C : Collaborators) (input : ExtractAvTagsIn) : ExtractAvTagsOut :=
  let (text, tags) := C.extract_av_tags_op input.text input.question_side
  let pt_tags := tags.map (fun avtag =>
    match avtag with
    | .SoundOrVideo file => ({ value := some (.SoundOrVideo file) } : PbAvTag)
    | .TextToSpeech field_text lang voices other_args speed =>
      ({ value := some (.Tts field_text lang voices other_args speed) } : PbAvTag))
  { text := text, av_tags := pt_tags }

/-- `Backend::extract_latex` (lines 435-453). -/
def extract_latex (C : Collaborators) (input : ExtractLatexIn) : ExtractLatexOut :=
  let func := if input.expand_clozes then C.extract_latex_expanding_clozes_op
              else C.extract_latex_op
  let (text, extracted) := func input.text input.svg
  { text := text
    latex := extracted.map (fun e => { filename := e.fname, latex_body := e.latex }) }

/-- `Backend::add_media_file` (lines 455-463). -/
def add_media_file (C : Collaborators) (b : Backend) (input : AddMediaFileIn) :
    Except AnkiError String × Backend :=
  with_col b (fun col =>
    (match C.media_manager_new col.media_folder col.media_db with
     | .error e => .error e
     | .ok mgr => C.mgr_add_file mgr input.desired_name input.data, col))

/-- `Backend::sync_media_inner` (lines 486-500): build the progress callback
over `fire_progress_callback`, construct the media manager from the extracted
paths, and drive the media-sync future to completion (`Runtime::new()` is
modelled as succeeding). -/
def sync_media_inner (C : Collaborators) (b : Backend) (input : SyncMediaIn)
    (folder db : String) (log : LoggerT) : Except AnkiError Unit :=
  let callback := fun progress => fire_progress_callback C b (.MediaSync progress)
  match C.media_manager_new folder db with
  | .error e => .error e
  | .ok mgr => C.mgr_sync_media mgr callback input.endpoint input.hkey log

/-- `Backend::sync_media` (lines 467-484).  The source locks the guard and
calls `guard.as_mut().unwrap()`: with no open collection this panics.
Otherwise it marks the handle busy (`col.set_media_sync_running()?`, a
collection method outside src/; modelled from the spec as setting the busy
flag, always succeeding), copies out the media paths and logger, releases the
guard, runs the long operation without holding it, and finally reacquires via
`with_col` solely to clear the flag (`set_media_sync_finished`), returning the
operation's own result. -/
def sync_media (C : Collaborators) (b : Backend) (input : SyncMediaIn) :
    PanicOr (Except AnkiError Unit × Backend) :=
  match b.col with
  | none => .panicked "called `Option::unwrap()` on a `None` value"
  | some col =>
    let col := { col with media_sync_running := true }
    let folder := col.media_folder
    let db := col.media_db
    let log := col.log
    let b := { b with col := some col }
    let res := sync_media_inner C b input folder db log
    match with_col b (fun col => (.ok (), { col with media_sync_running := false })) with
    | (.error e, b') => .returned (.error e, b')
    | (.ok (), b') => .returned (res, b')

/-- `Backend::check_media` (lines 502-522). -/
def check_media (C : Collaborators) (b : Backend) :
    Except AnkiError MediaCheckOut × Backend :=
  with_col b (fun col =>
    match C.media_manager_new col.media_folder col.media_db with
    | .error e => (.error e, col)
    | .ok mgr =>
      transact col (fun ctx =>
        match C.checker_check mgr ctx with
        | .error e => .error e
        | .ok (output, ctx') =>
          let report := C.summarize_output output
          .ok ({ unused := output.unused
                 missing := output.missing
                 report := report
                 have_trash := output.trash_count > 0 }, ctx')))

/-- `Backend::remove_media_files` (lines 524-530). -/
def remove_media_files (C : Collaborators) (b : Backend) (fnames : List String) :
    Except AnkiError Unit × Backend :=
  with_col b (fun col =>
    (match C.media_manager_new col.media_folder col.media_db with
     | .error e => .error e
     | .ok mgr => C.mgr_remove_files mgr fnames, col))

/-- `Backend::translate_string` (lines 532-545). -/
def translate_string (C : Collaborators) (input : TranslateStringIn) : String :=
  match C.fluent_string_from_i32 input.key with
  | none => "invalid key"
  | some key =>
    let map := input.args.map (fun p => (p.1, translate_arg_to_fluent_val p.2))
    C.i18n_trn key map

/-- `Backend::format_time_span` (lines 547-561). -/
def format_time_span (C : Collaborators) (input : FormatTimeSpanIn) : String :=
  match C.format_context_from_i32 input.context with
  | none => ""
  | some context =>
    match context with
    | .Precise => C.time_span_op input.seconds true
    | .Intervals => C.time_span_op input.seconds false
    | .AnswerButtons => C.answer_button_time_op input.seconds

/-- `Backend::empty_trash` (lines 563-575). -/
def empty_trash (C : Collaborators) (b : Backend) : Except AnkiError Unit × Backend :=
  with_col b (fun col =>
    match C.media_manager_new col.media_folder col.media_db with
    | .error e => (.error e, col)
    | .ok mgr =>
      transact col (fun ctx =>
        match C.checker_empty_trash mgr ctx with
        | .error e => .error e
        | .ok ((), ctx') => .ok ((), ctx')))

/-- `Backend::restore_trash` (lines 577-590). -/
def restore_trash (C : Collaborators) (b : Backend) : Except AnkiError Unit × Backend :=
  with_col b (fun col =>
    match C.media_manager_new col.media_folder col.media_db with
    | .error e => (.error e, col)
    | .ok mgr =>
      transact col (fun ctx =>
        match C.checker_restore_trash mgr ctx with
        | .error e => .error e
        | .ok ((), ctx') => .ok ((), ctx')))

/-- `Backend::search_cards` (lines 596-620). -/
def search_cards (C : Collaborators) (b : Backend) (input : SearchCardsIn) :
    Except AnkiError SearchCardsOut × Backend :=
  with_col b (fun col =>
    let order : SortMode :=
      match input.order with
      | some order =>
        match order.value with
        | some .NoneOrder => .NoOrder
        | some (.Custom s) => .Custom s
        | some .FromConfig => .FromConfig
        | some (.Builtin kind reverse) =>
          .Builtin (sort_kind_from_pb C kind) reverse
        | none => .FromConfig
      | none => .FromConfig
    (match C.search_cards_op col input.search order with
     | .error e => .error e
     | .ok cids => .ok { card_ids := cids }, col))

/-- `Backend::search_notes` (lines 622-631). -/
def search_notes (C : Collaborators) (b : Backend) (input : SearchNotesIn) :
    Except AnkiError SearchNotesOut × Backend :=
  with_col b (fun col =>
    (match C.search_notes_op col input.search with
     | .error e => .error e
     | .ok nids => .ok { note_ids := nids }, col))

/-- `Backend::get_card` (lines 633-638). -/
def get_card (C : Collaborators) (b : Backend) (cid : Int) :
    Except AnkiError GetCardOut × Backend :=
  let (r, b') := with_col b (fun col => (C.storage_get_card col cid, col))
  (match r with
   | .error e => .error e
   | .ok card => .ok { card := card.map card_to_pb }, b')

/-- `Backend::update_card` (lines 640-643): convert the wire card first, then
update it inside a transaction. -/
def update_card (C : Collaborators) (b : Backend) (pbcard : PbCard) :
    Except AnkiError Unit × Backend :=
  match pbcard_to_native C pbcard with
  | .error e => (.error e, b)
  | .ok card =>
    with_col b (fun col =>
      transact col (fun ctx =>
        match C.ctx_update_card ctx card with
        | .error e => .error e
        | .ok ctx' => .ok ((), ctx')))

/-- `Backend::add_card` (lines 645-649): convert the wire card first, then add
it inside a transaction; `ctx.add_card` assigns the new id into the card, which
the handler then returns (`Ok(card.id.0)`), modelled by the op returning the
assigned id. -/
def add_card (C : Collaborators) (b : Backend) (pbcard : PbCard) :
    Except AnkiError Int × Backend :=
  match pbcard_to_native C pbcard with
  | .error e => (.error e, b)
  | .ok card =>
    with_col b (fun col => transact col (fun ctx => C.ctx_add_card ctx card))

/-- `Backend::run_command_inner` (lines 198-265): the exhaustive
variant-to-handler mapping.  The `DeckTree` arm is `todo!()`, which panics.
Handlers that mutate the backend thread it through; the `?` on fallible
handlers surfaces as the `Except` layer of the result. -/
def run_command_inner (C : Collaborators) (b : Backend) (ival : IValue) :
    PanicOr (Except AnkiError OValue × Backend) :=
  match ival with
  | .TemplateRequirements input =>
    .returned ((template_requirements C input).map .TemplateRequirements, b)
  | .SchedTimingToday input =>
    .returned (.ok (.SchedTimingToday (sched_timing_today C input)), b)
  | .DeckTree _ => .panicked "not yet implemented"
  | .RenderCard input =>
    .returned ((render_template C input).map .RenderCard, b)
  | .LocalMinutesWest stamp =>
    .returned (.ok (.LocalMinutesWest (C.local_minutes_west_for_stamp stamp)), b)
  | .StripAvTags text =>
    .returned (.ok (.StripAvTags (C.strip_av_tags text)), b)
  | .ExtractAvTags input =>
    .returned (.ok (.ExtractAvTags (extract_av_tags C input)), b)
  | .ExtractLatex input =>
    .returned (.ok (.ExtractLatex (extract_latex C input)), b)
  | .AddMediaFile input =>
    let (r, b') := add_media_file C b input
    .returned (r.map .AddMediaFile, b')
  | .SyncMedia input =>
    (match sync_media C b input with
     | .panicked msg => .panicked msg
     | .returned (r, b') => .returned (r.map (fun _ => .SyncMedia {}), b'))
  | .CheckMedia _ =>
    let (r, b') := check_media C b
    .returned (r.map .CheckMedia, b')
  | .TrashMediaFiles input =>
    let (r, b') := remove_media_files C b input.fnames
    .returned (r.map (fun _ => .TrashMediaFiles {}), b')
  | .TranslateString input =>
    .returned (.ok (.TranslateString (translate_string C input)), b)
  | .FormatTimeSpan input =>
    .returned (.ok (.FormatTimeSpan (format_time_span C input)), b)
  | .StudiedToday input =>
    .returned (.ok (.StudiedToday (C.studied_today_op input.cards input.seconds)), b)
  | .CongratsLearnMsg input =>
    .returned (.ok (.CongratsLearnMsg (C.learning_congrats_op input.remaining input.next_due)), b)
  | .EmptyTrash _ =>
    let (r, b') := empty_trash C b
    .returned (r.map (fun _ => .EmptyTrash {}), b')
  | .RestoreTrash _ =>
    let (r, b') := restore_trash C b
    .returned (r.map (fun _ => .RestoreTrash {}), b')
  | .OpenCollection input =>
    let (r, b') := open_collection C b input
    .returned (r.map (fun _ => .OpenCollection {}), b')
  | .CloseCollection _ =>
    let (r, b') := close_collection b
    .returned (r.map (fun _ => .CloseCollection {}), b')
  | .SearchCards input =>
    let (r, b') := search_cards C b input
    .returned (r.map .SearchCards, b')
  | .SearchNotes input =>
    let (r, b') := search_notes C b input
    .returned (r.map .SearchNotes, b')
  | .GetCard cid =>
    let (r, b') := get_card C b cid
    .returned (r.map .GetCard, b')
  | .UpdateCard card =>
    let (r, b') := update_card C b card
    .returned (r.map (fun _ => .UpdateCard {}), b')
  | .AddCard card =>
    let (r, b') := add_card C b card
    .returned (r.map .AddCard, b')

/-- `Backend::run_command` (lines 181-196): an absent inner value is an
invalid-input error; a handler failure is translated; either way the Response
Envelope carries exactly one value. -/
def run_command (C : Collaborators) (b : Backend) (input : BackendInput) :
    PanicOr (BackendOutput × Backend) :=
  match input.value with
  | some ival =>
    (match run_command_inner C b ival with
     | .panicked msg => .panicked msg
     | .returned (r, b') =>
       let oval : OValue :=
         match r with
         | .ok output => output
         | .error err => .Error (anki_error_to_proto_error C.localized_description err)
       .returned ({ value := some oval }, b'))
  | none =>
    .returned
      ({ value := some (.Error (anki_error_to_proto_error C.localized_description
          (.InvalidInput "unrecognized backend input value"))) }, b)

/-- `Backend::run_command_bytes` (lines 143-163): decode the request; on decode
failure, encode an invalid-input error envelope before any handler runs;
otherwise dispatch and encode the reply. -/
def run_command_bytes (C : Collaborators) (b : Backend) (req : List Nat) :
    PanicOr (List Nat × Backend) :=
  match C.decode_backend_input req with
  | none =>
    let err := AnkiError.InvalidInput "couldn't decode backend request"
    let oerr := anki_error_to_proto_error C.localized_description err
    let output : BackendOutput := { value := some (.Error oerr) }
    .returned (C.encode_backend_output output, b)
  | some input =>
    match run_command C b input with
    | .panicked msg => .panicked msg
    | .returned (resp, b') => .returned (C.encode_backend_output resp, b')

/-- A concrete collaborator bundle used to evaluate the dispatch layer on
closed inputs: every external operation is a trivially succeeding constant.
Its `CardType`/`CardQueue` enums accept only discriminant 0 (every `repr(u8)`
or `repr(i8)` enum accepts at most the discriminants representable in one
byte, so 256 is outside any valid range). -/
def C0 : Collaborators :=
  { localized_description := fun _ => ""
    decode_backend_input := fun _ => none
    encode_backend_output := fun _ => []
    encode_progress := fun _ => []
    tr_media_check_checked := fun _ => ""
    tr_sync_media_checked := fun _ => ""
    tr_sync_media_added := fun _ _ => ""
    tr_sync_media_removed := fun _ _ => ""
    without_legacy_template_directives := fun s => s
    template_from_text := fun _ => none
    template_requirements_of := fun _ _ => .None
    sched_timing_today_op := fun _ _ _ _ _ => { days_elapsed := 0, next_day_at := 0 }
    render_card_op := fun _ _ _ _ => .ok ([], [])
    local_minutes_west_for_stamp := fun _ => 0
    strip_av_tags := fun s => s
    extract_av_tags_op := fun s _ => (s, [])
    extract_latex_op := fun s _ => (s, [])
    extract_latex_expanding_clozes_op := fun s _ => (s, [])
    media_manager_new := fun f d => .ok { media_folder := f, media_db := d }
    mgr_add_file := fun _ n _ => .ok n
    mgr_sync_media := fun _ _ _ _ _ => .ok ()
    checker_check := fun _ c => .ok ({ unused := [], missing := [], trash_count := 0 }, c)
    summarize_output := fun _ => ""
    checker_empty_trash := fun _ c => .ok ((), c)
    checker_restore_trash := fun _ c => .ok ((), c)
    mgr_remove_files := fun _ _ => .ok ()
    fluent_string_from_i32 := fun _ => none
    i18n_trn := fun _ _ => ""
    format_context_from_i32 := fun _ => none
    time_span_op := fun _ _ => ""
    answer_button_time_op := fun _ => ""
    studied_today_op := fun _ _ => ""
    learning_congrats_op := fun _ _ => ""
    default_logger := fun _ => .ok { tag := "" }
    open_collection_op := fun p mf md _ l =>
      .ok { collection_path := p, media_folder := mf, media_db := md, log := l,
            media_sync_running := false, can_close := true }
    builtin_sort_kind_from_i32 := fun _ => none
    search_cards_op := fun _ _ _ => .ok []
    search_notes_op := fun _ _ => .ok []
    storage_get_card := fun _ _ => .ok none
    ctx_update_card := fun c _ => .ok c
    ctx_add_card := fun c _ => .ok (1, c)
    card_type_try_from := fun n => if n = 0 then some { code := 0 } else none
    card_queue_try_from := fun n => if n = 0 then some { code := 0 } else none }

/-- A concrete open collection handle. -/
def col0 : Collection :=
  { collection_path := "collection.anki2", media_folder := "media", media_db := "media.db",
    log := { tag := "" }, media_sync_running := false, can_close := true }

/-- The same handle reporting that it is unsafe to close. -/
def colNoClose : Collection := { col0 with can_close := false }

/-- A backend with an open collection and no progress callback. -/
def bOpen : Backend := { col := some col0, progress_callback := none, server := false }

/-- A backend with no open collection. -/
def bClosed : Backend := { col := none, progress_callback := none, server := false }

/-- A backend whose open collection reports it is unsafe to close. -/
def bNoClose : Backend := { col := some colNoClose, progress_callback := none, server := false }

/-- A concrete media-sync request. -/
def sm_in0 : SyncMediaIn := { hkey := "key", endpoint := "https://example.invalid/" }

/-- A concrete open-collection request. -/
def oc_in0 : OpenCollectionIn :=
  { collection_path := "collection.anki2", media_folder_path := "media",
    media_db_path := "media.db", log_path := "" }

/-- A wire card whose type and queue discriminants are the valid value 0. -/
def pbcard0 : PbCard :=
  { id := 0, nid := 0, did := 0, ord := 0, mtime := 0, usn := 0, ctype := 0, queue := 0,
    due := 0, ivl := 0, factor := 0, reps := 0, lapses := 0, left := 0, odue := 0,
    odid := 0, flags := 0, data := "" }

/-- A wire card whose `ctype` is 256: outside the valid enum range, but
truncating to the valid discriminant 0 under `as u8`. -/
def pbcard256 : PbCard := { pbcard0 with ctype := 256 }

/-- A wire card whose `ctype` is 7: invalid both before and after truncation. -/
def pbcard_badtype : PbCard := { pbcard0 with ctype := 7 }

/-- The Response Envelope produced by a collection-touching handler invoked
while no collection is open, under the `C0` collaborators. -/
def notOpenRespClosed : PanicOr (BackendOutput × Backend) :=
  .returned
    ({ value := some (.Error (anki_error_to_proto_error C0.localized_description
        .CollectionNotOpen)) }, bClosed)

/-- A dispatcher outcome that is a normal return whose Response Envelope
carries a value (a typed result or a translated error), never a panic. -/
def yields_response (x : PanicOr (BackendOutput × Backend)) : Prop :=
  match x with
  | .panicked _ => False
  | .returned (out, _) => out.value.isSome = true

/-- Claim C3, counterexample: the translator maps collection-not-open and
collection-already-open onto the same machine-readable wire value as plain
invalid-input, so these kinds are not distinguishable for programmatic
branching by the wire kind. -/
theorem C3_counterexample_kind_collapse :
    (anki_error_to_proto_error (fun _ => "") .CollectionNotOpen).value
        = (anki_error_to_proto_error (fun _ => "") (.InvalidInput "x")).value
    ∧ (anki_error_to_proto_error (fun _ => "") .CollectionAlreadyOpen).value
        = (anki_error_to_proto_error (fun _ => "") (.InvalidInput "x")).value
    ∧ (anki_error_to_proto_error (fun _ => "") .CollectionNotOpen).value
        = (anki_error_to_proto_error (fun _ => "") .CollectionAlreadyOpen).value :=
  ⟨rfl, rfl, rfl⟩

/-- Claim C3, amended: the translation is total over all nine internal kinds
and always carries the localized message plus a machine-readable value; that
value identifies the kind (with subtype) for the seven non-collection kinds,
but collection-not-open and collection-already-open are both folded into the
invalid-input wire value. -/
theorem C3_translation_total_with_collapse (loc : AnkiError → String) :
    (∀ err, anki_error_to_proto_error loc err =
        { value := some (proto_error_value_of_kind (errKind err)), localized := loc err })
    ∧ (∀ k1 k2 : ErrKind, collapses_to_invalid k1 = false → collapses_to_invalid k2 = false →
        (proto_error_value_of_kind k1 = proto_error_value_of_kind k2 ↔ k1 = k2))
    ∧ proto_error_value_of_kind .collectionNotOpen = .InvalidInput
    ∧ proto_error_value_of_kind .collectionAlreadyOpen = .InvalidInput := by
  refine ⟨?_, ?_, rfl, rfl⟩
  · intro err
    cases err <;> rfl
  · decide

/-- Claim C3 witness: the amended theorem evaluated on collection-not-open
with a concrete catalog. -/
theorem C3_translation_total_with_collapse_witness :
    proto_error_value_of_kind .collectionNotOpen = .InvalidInput
    ∧ anki_error_to_proto_error (fun _ => "anki") .CollectionNotOpen =
        { value := some .InvalidInput, localized := "anki" } := by
  obtain ⟨h1, _, h3, _⟩ := C3_translation_total_with_collapse (fun _ => "anki")
  exact ⟨h3, h1 .CollectionNotOpen⟩

/-- Claim C8: the network-failure and sync-failure subtypes survive translation
to the wire codes one-to-one — the code maps are injective and invertible by
the wire decoders. -/
theorem C8_subtype_codes_preserved :
    Function.Injective network_error_kind_to_i32
    ∧ Function.Injective sync_error_kind_to_i32
    ∧ (∀ k, network_error_kind_from_i32 (network_error_kind_to_i32 k) = some k)
    ∧ (∀ k, sync_error_kind_from_i32 (sync_error_kind_to_i32 k) = some k) := by
  refine ⟨?_, ?_, ?_, ?_⟩ <;> decide

/-- Claim C8 witness: concrete subtypes round-trip and stay distinct. -/
theorem C8_subtype_codes_preserved_witness :
    network_error_kind_to_i32 .Offline ≠ network_error_kind_to_i32 .Timeout
    ∧ sync_error_kind_from_i32 (sync_error_kind_to_i32 .AuthFailed) = some .AuthFailed := by
  refine ⟨fun h => ?_, C8_subtype_codes_preserved.2.2.2 .AuthFailed⟩
  exact absurd (C8_subtype_codes_preserved.1 h) (by decide)

/-- Claim C9: a progress snapshot pushed while no delivery callback is
installed reports continue (true), never cancellation. -/
theorem C9_fire_progress_no_callback (C : Collaborators) (b : Backend) (progress : Progress)
    (h : b.progress_callback = none) :
    fire_progress_callback C b progress = true := by
  unfold fire_progress_callback
  rw [h]

/-- Claim C9 witness: the theorem evaluated on a concrete backend with no
callback installed. -/
theorem C9_fire_progress_no_callback_witness :
    fire_progress_callback C0 bClosed (.MediaCheck 3) = true :=
  C9_fire_progress_no_callback C0 bClosed (.MediaCheck 3) rfl

/-- Claim C5: a second open with no intervening close fails with already-open
and leaves the handle installed; a close while closed fails with not-open; a
close when the handle reports it is unsafe fails with invalid-input and leaves
the handle installed; otherwise close drops the handle. -/
theorem C5_open_close_lifecycle (C : Collaborators) (b : Backend) :
    (∀ c, b.col = some c → ∀ input,
        open_collection C b input = (.error .CollectionAlreadyOpen, b))
    ∧ (b.col = none → close_collection b = (.error .CollectionNotOpen, b))
    ∧ (∀ c, b.col = some c → c.can_close = false →
        close_collection b = (.error (.InvalidInput "can't close yet"), b))
    ∧ (∀ c, b.col = some c → c.can_close = true →
        close_collection b = (.ok (), { b with col := none })) := by
  refine ⟨?_, ?_, ?_, ?_⟩
  · intro c hc input
    unfold open_collection
    rw [hc]
  · intro hc
    unfold close_collection
    rw [hc]
  · intro c hc hcc
    unfold close_collection
    rw [hc]
    simp [hcc]
  · intro c hc hcc
    unfold close_collection
    rw [hc]
    simp [hcc]

/-- Claim C5 witness: the lifecycle theorem evaluated on concrete open, closed
and unsafe-to-close backends. -/
theorem C5_open_close_lifecycle_witness :
    open_collection C0 bOpen oc_in0 = (.error .CollectionAlreadyOpen, bOpen)
    ∧ close_collection bClosed = (.error .CollectionNotOpen, bClosed)
    ∧ close_collection bNoClose = (.error (.InvalidInput "can't close yet"), bNoClose)
    ∧ close_collection bOpen = (.ok (), { bOpen with col := none }) :=
  ⟨(C5_open_close_lifecycle C0 bOpen).1 col0 rfl oc_in0,
   (C5_open_close_lifecycle C0 bClosed).2.1 rfl,
   (C5_open_close_lifecycle C0 bNoClose).2.2.1 colNoClose rfl rfl,
   (C5_open_close_lifecycle C0 bOpen).2.2.2 col0 rfl rfl⟩

/-- Claim C6: a byte buffer that fails to decode into a Request Envelope makes
`run_command_bytes` return (not panic) an encoded Response Envelope carrying
invalid-input, with the backend state untouched — no handler runs. -/
theorem C6_decode_failure_reply (C : Collaborators) (b : Backend) (req : List Nat)
    (h : C.decode_backend_input req = none) :
    run_command_bytes C b req =
      .returned (C.encode_backend_output
        { value := some (.Error (anki_error_to_proto_error C.localized_description
            (.InvalidInput "couldn't decode backend request"))) }, b) := by
  unfold run_command_bytes
  rw [h]

/-- Claim C6 witness: the theorem evaluated on concrete garbage bytes under a
decoder that rejects them. -/
theorem C6_decode_failure_reply_witness :
    run_command_bytes C0 bClosed [255, 7] =
      .returned (C0.encode_backend_output
        { value := some (.Error (anki_error_to_proto_error C0.localized_description
            (.InvalidInput "couldn't decode backend request"))) }, bClosed) :=
  C6_decode_failure_reply C0 bClosed [255, 7] rfl

/-- Claim C4: for a sync-media call on an open collection, the handle's busy
flag is set while the long operation runs (the backend seen by the progress
callback carries it), the operation receives only the extracted paths and
logger, the flag is cleared afterwards on every exit path — the operation's
result `res` is arbitrary here, covering success, failure and cancellation —
and that result is returned to the caller unchanged. -/
theorem C4_sync_media_clears_busy (C : Collaborators) (b : Backend) (c : Collection)
    (input : SyncMediaIn) (h : b.col = some c) :
    sync_media C b input =
      .returned
        (sync_media_inner C { b with col := some { c with media_sync_running := true } }
            input c.media_folder c.media_db c.log,
         { b with col := some { c with media_sync_running := false } }) := by
  unfold sync_media
  rw [h]
  exact rfl

/-- Claim C4 witness: the theorem evaluated on a concrete open backend; the
trivial collaborator sync succeeds and the busy flag ends cleared. -/
theorem C4_sync_media_clears_busy_witness :
    sync_media C0 bOpen sm_in0 =
      .returned (.ok (), { bOpen with col := some { col0 with media_sync_running := false } }) :=
  C4_sync_media_clears_busy C0 bOpen col0 sm_in0 rfl

/-- Claim C2: while no collection is open, every collection-touching request
other than sync-media yields the collection-not-open Response Envelope, but a
sync-media request panics — `sync_media` unwraps the absent handle — instead
of returning collection-not-open as the spec requires. -/
theorem C2_closed_collection_behavior :
    run_command C0 bClosed { value := some (.SyncMedia sm_in0) }
        = .panicked "called `Option::unwrap()` on a `None` value"
    ∧ run_command C0 bClosed { value := some (.GetCard 5) } = notOpenRespClosed
    ∧ run_command C0 bClosed { value := some (.SearchCards { search := "", order := none }) }
        = notOpenRespClosed
    ∧ run_command C0 bClosed { value := some (.SearchNotes { search := "" }) } = notOpenRespClosed
    ∧ run_command C0 bClosed { value := some (.CheckMedia {}) } = notOpenRespClosed
    ∧ run_command C0 bClosed { value := some (.AddMediaFile { desired_name := "f", data := [] }) }
        = notOpenRespClosed
    ∧ run_command C0 bClosed { value := some (.TrashMediaFiles { fnames := [] }) }
        = notOpenRespClosed
    ∧ run_command C0 bClosed { value := some (.EmptyTrash {}) } = notOpenRespClosed
    ∧ run_command C0 bClosed { value := some (.RestoreTrash {}) } = notOpenRespClosed
    ∧ run_command C0 bClosed { value := some (.UpdateCard pbcard0) } = notOpenRespClosed
    ∧ run_command C0 bClosed { value := some (.AddCard pbcard0) } = notOpenRespClosed
    ∧ run_command C0 bClosed { value := some (.CloseCollection {}) } = notOpenRespClosed :=
  ⟨rfl, rfl, rfl, rfl, rfl, rfl, rfl, rfl, rfl, rfl, rfl, rfl⟩

/-- Claim C1, counterexample: a DeckTree Request Envelope makes the dispatcher
panic (`todo!()`) instead of returning a Response Envelope, and so does a
sync-media request while no collection is open (`unwrap` of the absent
handle). -/
theorem C1_counterexample_decktree :
    run_command C0 bOpen { value := some (.DeckTree {}) } = .panicked "not yet implemented"
    ∧ run_command C0 bClosed { value := some (.SyncMedia sm_in0) }
        = .panicked "called `Option::unwrap()` on a `None` value" :=
  ⟨rfl, rfl⟩

/-- Claim C1, amended: for every decoded Request Envelope whose variant is not
DeckTree - and, for sync-media, while a collection is open - the dispatcher
resolves it to exactly one handler and returns a Response Envelope carrying a
value (typed result or translated error); an absent inner value yields the
invalid-input error response.  DeckTree is unimplemented and panics, and
sync-media with no open collection panics. -/
theorem C1_run_command_total (C : Collaborators) (b : Backend) (input : BackendInput)
    (hdt : ∀ d, input.value ≠ some (.DeckTree d))
    (hsm : ∀ s, input.value = some (.SyncMedia s) → b.col ≠ none) :
    yields_response (run_command C b input)
    ∧ (input.value = none →
        run_command C b input =
          .returned ({ value := some (.Error (anki_error_to_proto_error C.localized_description
              (.InvalidInput "unrecognized backend input value"))) }, b)) := by
  obtain ⟨v⟩ := input
  cases v with
  | none => exact ⟨rfl, fun _ => rfl⟩
  | some ival =>
    refine ⟨?_, fun h => nomatch h⟩
    cases ival with
    | DeckTree d => exact absurd rfl (hdt d)
    | SyncMedia s =>
      cases hcol : b.col with
      | none => exact absurd hcol (hsm s rfl)
      | some c =>
        unfold yields_response run_command run_command_inner sync_media
        rw [hcol]
        exact rfl
    | TemplateRequirements input => exact rfl
    | SchedTimingToday input => exact rfl
    | RenderCard input => exact rfl
    | LocalMinutesWest stamp => exact rfl
    | StripAvTags text => exact rfl
    | ExtractAvTags input => exact rfl
    | ExtractLatex input => exact rfl
    | AddMediaFile input => exact rfl
    | CheckMedia input => exact rfl
    | TrashMediaFiles input => exact rfl
    | TranslateString input => exact rfl
    | FormatTimeSpan input => exact rfl
    | StudiedToday input => exact rfl
    | CongratsLearnMsg input => exact rfl
    | EmptyTrash input => exact rfl
    | RestoreTrash input => exact rfl
    | OpenCollection input => exact rfl
    | CloseCollection input => exact rfl
    | SearchCards input => exact rfl
    | SearchNotes input => exact rfl
    | GetCard cid => exact rfl
    | UpdateCard card => exact rfl
    | AddCard card => exact rfl

/-- Claim C1 witness: the amended theorem evaluated on a concrete non-DeckTree
request against a closed backend, and on a concrete Request Envelope with an
absent inner value, whose response is the invalid-input error envelope. -/
theorem C1_run_command_total_witness :
    yields_response (run_command C0 bClosed { value := some (.StripAvTags "x") })
    ∧ run_command C0 bClosed { value := none } =
        .returned ({ value := some (.Error (anki_error_to_proto_error C0.localized_description
            (.InvalidInput "unrecognized backend input value"))) }, bClosed) :=
  ⟨(C1_run_command_total C0 bClosed { value := some (.StripAvTags "x") }
      (fun _ h => nomatch h) (fun _ h => nomatch h)).1,
   (C1_run_command_total C0 bClosed { value := none }
      (fun _ h => nomatch h) (fun _ h => nomatch h)).2 rfl⟩

/-- Claim C7: template-requirement analysis is total, producing exactly one
requirement entry per input template in order (the output is the per-template
map over the input list, so it has the same length and the i-th entry comes
from the i-th template), and a template that fails to parse yields the
unsatisfiable value (`Value::None`) for its entry instead of an error. -/
theorem C7_template_requirements_per_item (C : Collaborators)
    (input : TemplateRequirementsIn) :
    ∃ out, template_requirements C input = .ok out
      ∧ out.requirements
          = input.template_front.map
              (template_requirement_of C
                (input.field_names_to_ordinals.map (fun p => (p.1, u32_as_u16 p.2))))
      ∧ out.requirements.length = input.template_front.length
      ∧ (∀ map t, C.template_from_text (C.without_legacy_template_directives t) = none →
            template_requirement_of C map t
              = { value := some TemplateRequirementValue.None }) := by
  refine ⟨_, rfl, rfl, by simp, ?_⟩
  intro map t h
  unfold template_requirement_of
  simp [h]

/-- Claim C7 witness: the theorem's parse-failure clause evaluated at a
concrete template under a collaborator parser that rejects it. -/
theorem C7_template_requirements_per_item_witness :
    template_requirement_of C0 [] "bad template"
      = { value := some TemplateRequirementValue.None } := by
  obtain ⟨_, _, _, _, h4⟩ := C7_template_requirements_per_item C0
    { template_front := [], field_names_to_ordinals := [] }
  exact h4 [] "bad template" rfl

/-- Claim C10, counterexample: a card whose wire `ctype` is 256 — outside any
valid `CardType` range, `CardType` being `repr(u8)` (here the collaborator
enum accepts only discriminant 0) — is nonetheless accepted and added, because
`c.ctype as u8` truncates 256 to the valid discriminant 0 before
`CardType::try_from` runs. -/
theorem C10_counterexample_truncation :
    C0.card_type_try_from 256 = none
    ∧ add_card C0 bOpen pbcard256 = (.ok 1, bOpen) :=
  ⟨rfl, rfl⟩

/-- Claim C10, amended: add-card and update-card fail with an invalid-input
error before any collection access — the backend is returned untouched —
exactly when the truncated type (`ctype as u8`) or queue (`queue as i8`) value
is outside the enum range; an out-of-range integer whose truncation is a valid
discriminant is accepted instead. -/
theorem C10_card_conversion_guard (C : Collaborators) (b : Backend) (c : PbCard) :
    (C.card_type_try_from (u32_as_u8 c.ctype) = none →
        pbcard_to_native C c = .error (.InvalidInput "invalid card type"))
    ∧ (∀ t, C.card_type_try_from (u32_as_u8 c.ctype) = some t →
        C.card_queue_try_from (i32_as_i8 c.queue) = none →
        pbcard_to_native C c = .error (.InvalidInput "invalid card queue"))
    ∧ (∀ e, pbcard_to_native C c = .error e →
        add_card C b c = (.error e, b) ∧ update_card C b c = (.error e, b)) := by
  refine ⟨?_, ?_, ?_⟩
  · intro h
    unfold pbcard_to_native
    rw [h]
  · intro t h1 h2
    unfold pbcard_to_native
    rw [h1, h2]
  · intro e h
    constructor
    · unfold add_card
      rw [h]
    · unfold update_card
      rw [h]

/-- Claim C10 witness: the amended theorem evaluated on a concrete card whose
type discriminant is invalid even after truncation; both the conversion error
and the untouched backend are observed. -/
theorem C10_card_conversion_guard_witness :
    pbcard_to_native C0 pbcard_badtype = .error (.InvalidInput "invalid card type")
    ∧ add_card C0 bOpen pbcard_badtype = (.error (.InvalidInput "invalid card type"), bOpen) := by
  obtain ⟨h1, _, h3⟩ := C10_card_conversion_guard C0 bOpen pbcard_badtype
  have he := h1 rfl
  exact ⟨he, (h3 _ he).1⟩
